import Mathlib

/-!
Verification of the vizify browser extension core (generation orchestration
pipeline) against its natural-language specification.

The development shallowly embeds the TypeScript source:
- `src/background/storage.ts` (API-key validation, bounded history store),
- the FAL API client module (`validateImageUrl`, `parseApiError`, `callFalAPI`),
- `src/background/background.ts` (`generateImage` orchestration),
- `src/content/content.ts` (selection processing and truncation).

JavaScript strings are modelled as Lean `String` where only whole-value
equality matters, and as `List Char` where character-level operations
(trim, substring, URL parsing) matter.  The host platform primitives
(`chrome.storage`, `fetch`, `Date.now`, `Math.random`, the WHATWG `URL`
constructor) are modelled explicitly: storage is reliable state passed as an
argument, the fetch outcome and the fresh id/timestamp are explicit inputs,
and the `URL` constructor is modelled by a scheme/host parser covering what
`validateImageUrl` observes.  Effects of one `generateImage` run are
modelled as a trace of actions in execution order.
-/

/-! ## History store (`src/background/storage.ts`) -/

/-- Embeds interface `HistoryItem` of `storage.ts`: one generated image in
the history.  The JS `timestamp` (milliseconds since epoch) is a `Nat`. -/
structure HistoryItem where
  id : String
  prompt : String
  imageUrl : String
  timestamp : Nat
  deriving Repr, DecidableEq

/-- Embeds constant `MAX_HISTORY_SIZE` of `storage.ts`. -/
def MAX_HISTORY_SIZE : Nat := 50

/-- Embeds the body of `addToHistory` in `storage.ts` once the fresh item is
built: `[newItem, ...history].slice(0, MAX_HISTORY_SIZE)` — prepend newest
first, then truncate to the cap, and store the result. -/
def addItem (newItem : HistoryItem) (history : List HistoryItem) : List HistoryItem :=
  (newItem :: history).take MAX_HISTORY_SIZE

/-- Embeds `addToHistory(prompt, imageUrl)` of `storage.ts`.  The fresh
unique id (from `Date.now()` plus a random component) and the timestamp
(`Date.now()`) are host inputs, passed explicitly; the stored `history`
list is passed in and the updated stored list is returned. -/
def addToHistory (id : String) (timestamp : Nat) (prompt imageUrl : String)
    (history : List HistoryItem) : List HistoryItem :=
  addItem ⟨id, prompt, imageUrl, timestamp⟩ history

/-- Sequential insertion of a list of already-built items into the store,
oldest trigger first, as repeated `addToHistory` calls. -/
def insertAll (items : List HistoryItem) (history : List HistoryItem) : List HistoryItem :=
  items.foldl (fun acc it => addItem it acc) history

/-- Whitespace as recognized by JS `String.prototype.trim` (WHATWG
whitespace and line terminators; the common subset suffices here). -/
def isJsWhitespace (c : Char) : Bool :=
  c = ' ' || c = '\t' || c = '\n' || c = '\r' || c = '\x0b' || c = '\x0c'

/-- Model of JS `text.trim()`: drop leading and trailing whitespace. -/
def jsTrim (text : List Char) : List Char :=
  ((text.dropWhile isJsWhitespace).reverse.dropWhile isJsWhitespace).reverse

/-- Embeds `validateApiKeyFormat` of `storage.ts`: non-empty, no
leading/trailing whitespace (JS `trim`, modelled by `jsTrim`),
minimum length 10. -/
def validateApiKeyFormat (apiKey : String) : Bool :=
  if apiKey.length = 0 then false
  else if apiKey.data ≠ jsTrim apiKey.data then false
  else if apiKey.length < 10 then false
  else true

/-! ## Selection processing (`src/content/content.ts`)

JS strings are modelled as `List Char` here because `trim` and
`substring` act on characters. -/

/-- Embeds constant `MAX_TEXT_LENGTH` of `content.ts`. -/
def MAX_TEXT_LENGTH : Nat := 1000

/-- Embeds `isEmptyOrWhitespace` of `content.ts`:
`text.trim().length === 0`. -/
def isEmptyOrWhitespace (text : List Char) : Bool :=
  (jsTrim text).length = 0

/-- Result shape of `truncateText` in `content.ts`. -/
structure TruncateResult where
  text : List Char
  wasTruncated : Bool
  deriving Repr, DecidableEq

/-- Embeds `truncateText` of `content.ts`: truncate to `MAX_TEXT_LENGTH`
characters when longer, flagging the truncation. -/
def truncateText (text : List Char) : TruncateResult :=
  if text.length > MAX_TEXT_LENGTH then
    ⟨text.take MAX_TEXT_LENGTH, true⟩
  else
    ⟨text, false⟩

/-- Result shape of `processSelectedText` in `content.ts`. -/
structure ProcessResult where
  text : List Char
  isValid : Bool
  wasTruncated : Bool
  error : Option String
  deriving Repr, DecidableEq

/-- Embeds `processSelectedText` of `content.ts`: reject empty or
whitespace-only selections, otherwise trim and truncate. -/
def processSelectedText (rawText : List Char) : ProcessResult :=
  let trimmedText := jsTrim rawText
  if isEmptyOrWhitespace rawText then
    ⟨[], false, false, some "Empty or whitespace-only selection"⟩
  else
    let r := truncateText trimmedText
    ⟨r.text, true, r.wasTruncated, none⟩

/-! ## URL validation (FAL API client module)

`validateImageUrl` calls the host WHATWG `URL` constructor and inspects
`protocol`.  The constructor is modelled by `urlProtocol`: parse an ASCII
scheme followed by a colon; for the special schemes that require an
authority (http, https, ws, wss, ftp) additionally require a non-empty
host after the optional slashes.  `urlProtocol s = some p` models
`new URL(s)` succeeding with `protocol` equal to `p`; `none` models the
constructor throwing. -/

/-- First character of a URL scheme: an ASCII letter. -/
def isSchemeStartChar (c : Char) : Bool :=
  c.isAlpha

/-- Subsequent characters of a URL scheme. -/
def isSchemeChar (c : Char) : Bool :=
  c.isAlphanum || c = '+' || c = '-' || c = '.'

/-- Scan the rest of a scheme up to the colon; returns the scheme
characters read so far plus the remainder after the colon. -/
def schemeSplit (acc : List Char) : List Char → Option (List Char × List Char)
  | [] => none
  | c :: cs =>
    if c = ':' then some (acc.reverse, cs)
    else if isSchemeChar c then schemeSplit (c :: acc) cs
    else none

/-- Special schemes for which the WHATWG URL parser requires a non-empty
host. -/
def requiresHost (scheme : String) : Bool :=
  scheme = "http" || scheme = "https" || scheme = "ws" || scheme = "wss" || scheme = "ftp"

/-- After the scheme of a special URL: skip slashes, then require a
non-empty host (next character present and not a path/query/fragment
delimiter). -/
def hasHost (rest : List Char) : Bool :=
  match rest.dropWhile (fun c => c = '/' || c = '\\') with
  | [] => false
  | c :: _ => !(c = '/' || c = '?' || c = '#')

/-- Model of the host WHATWG `URL` constructor restricted to what
`validateImageUrl` observes: `some p` when parsing succeeds with protocol
`p` (scheme lowercased, colon included), `none` when it throws. -/
def urlProtocol (s : String) : Option String :=
  match s.data with
  | [] => none
  | c :: cs =>
    if isSchemeStartChar c then
      match schemeSplit [c] cs with
      | some (scheme, rest) =>
        let schemeLower := String.mk (scheme.map Char.toLower)
        if requiresHost schemeLower then
          if hasHost rest then some (schemeLower ++ ":") else none
        else
          some (schemeLower ++ ":")
      | none => none
    else none

/-- Embeds `validateImageUrl` of the FAL API client: `none` models a
non-string input such as `null` (rejected by the `typeof` check); an empty
string is rejected; otherwise the URL must parse with protocol `http:` or
`https:`. -/
def validateImageUrl : Option String → Bool
  | none => false
  | some url =>
    if url.length = 0 then false
    else
      match urlProtocol url with
      | some protocol => protocol = "http:" || protocol = "https:"
      | none => false

/-- The property the spec states for URL validation: the input parses as
an absolute URL whose scheme is http or https.  Stated from the spec
wording, to be compared with `validateImageUrl`. -/
def parsesAsHttpUrl (s : String) : Bool :=
  match urlProtocol s with
  | some protocol => protocol = "http:" || protocol = "https:"
  | none => false

/-! ## Error classification (FAL API client module) -/

/-- Embeds `parseApiError` of the FAL API client: map an HTTP status code
and raw error text to the user-facing message. -/
def parseApiError (statusCode : Nat) (errorText : String) : String :=
  if statusCode = 429 then
    "Rate limit exceeded. Please wait a moment and try again."
  else if statusCode = 401 ∨ statusCode = 403 then
    "Invalid or expired API key. Please check your API key in settings."
  else if statusCode = 400 then
    "Invalid request. Please try a different prompt."
  else if statusCode ≥ 500 then
    "Service temporarily unavailable. Please try again later."
  else if errorText ≠ "" then
    "Failed to generate image: " ++ errorText
  else
    "Failed to generate image. Please try again."

/-! ## FAL API call (FAL API client module) -/

/-- Image entry of the FAL response body; only `url` is consumed. -/
structure FalImage where
  url : String
  deriving Repr, DecidableEq

/-- Parsed FAL response body; only `images` is consumed. -/
structure FalImageResponse where
  images : List FalImage
  deriving Repr, DecidableEq

/-- Outcome of the host `fetch` of one `callFalAPI` request.
`response status ok errorText body` models a delivered HTTP response:
`ok` is `response.ok`, `errorText` the error body text read on failure,
and `body` the JSON-parsed success body (`none` models a parse failure,
the `SyntaxError` path).  `transportError` models `fetch` rejecting with
a connection-level `TypeError` (message mentioning fetch). -/
inductive FetchOutcome where
  | response (status : Nat) (ok : Bool) (errorText : String) (body : Option FalImageResponse)
  | transportError
  deriving Repr, DecidableEq

/-- An `ApiError` thrown by `callFalAPI`: the technical message (kept for
diagnostics/logging) and the user-facing message. -/
structure ApiError where
  message : String
  userMessage : String
  deriving Repr, DecidableEq

/-- Embeds `callFalAPI` of the FAL API client as a function of the fetch
outcome: returns the validated image URL or throws an `ApiError`.  Every
failure path of the source wraps into an `ApiError` before the function
returns, so the exception type is exactly `ApiError`. -/
def callFalAPI (outcome : FetchOutcome) : Except ApiError String :=
  match outcome with
  | .transportError =>
    .error ⟨"Network error: Unable to connect to FAL API",
            "Network error. Please check your internet connection and try again."⟩
  | .response status ok errorText body =>
    if ok = false then
      .error ⟨"FAL API error (" ++ toString status ++ "): " ++ errorText,
              parseApiError status errorText⟩
    else
      match body with
      | none =>
        .error ⟨"Failed to parse API response",
                "Failed to generate image. The service returned an invalid response."⟩
      | some data =>
        match data.images with
        | [] =>
          .error ⟨"Invalid API response: no images returned",
                  "Failed to generate image. The service returned an invalid response."⟩
        | img :: _ =>
          if validateImageUrl (some img.url) then
            .ok img.url
          else
            .error ⟨"Invalid image URL format received from API",
                    "Failed to generate image. The service returned an invalid image URL."⟩

/-! ## Generation orchestration (`src/background/background.ts`)

One `generateImage(prompt)` run is modelled as the trace of its actions in
execution order.  The stored credential (`chrome.storage.local`, read via
`getApiKey`) and the fetch outcome are explicit inputs.  Storage writes
are modelled as reliable (the spec treats them as fast local operations);
`notifySidepanel` never fails the pipeline (delivery failure is swallowed
in the source), so each emit is one action. -/

/-- One observable action of a `generateImage` run, in execution order. -/
inductive GenAction where
  | readCredential
  | emitStarted (prompt : String)
  | callAPI (prompt : String)
  | insertHistory (prompt imageUrl : String)
  | emitImageGenerated (prompt imageUrl : String)
  | emitError (message : String)
  deriving Repr, DecidableEq

/-- The `MissingCredential` message of `generateImage`. -/
def missingCredentialMessage : String :=
  "API key not configured. Please add your FAL API key in settings."

/-- Embeds the JS truthiness test `!apiKey` on the value returned by
`getApiKey()`: true exactly for `undefined` (modelled `none`) and the
empty string. -/
def jsFalsy : Option String → Bool
  | none => true
  | some s => s.isEmpty

/-- Embeds `generateImage(prompt)` of `background.ts` as its action trace:
read the credential; if it is falsy, emit the `MissingCredential` error
and stop; otherwise emit started, call the API, and either persist then
emit success, or emit the classified user-facing error message. -/
def generateImage (prompt : String) (apiKey : Option String) (fetch : FetchOutcome) :
    List GenAction :=
  GenAction.readCredential ::
    (if jsFalsy apiKey then
      [GenAction.emitError missingCredentialMessage]
    else
      GenAction.emitStarted prompt :: GenAction.callAPI prompt ::
        (match callFalAPI fetch with
         | .ok imageUrl =>
           [GenAction.insertHistory prompt imageUrl,
            GenAction.emitImageGenerated prompt imageUrl]
         | .error e => [GenAction.emitError e.userMessage]))

/-- Selects the started lifecycle events of a trace. -/
def isStartedEvent : GenAction → Bool
  | .emitStarted _ => true
  | _ => false

/-- Selects the succeeded lifecycle events of a trace. -/
def isSucceededEvent : GenAction → Bool
  | .emitImageGenerated _ _ => true
  | _ => false

/-- Selects the failed lifecycle events of a trace. -/
def isErrorEvent : GenAction → Bool
  | .emitError _ => true
  | _ => false

/-- Selects the history-store inserts of a trace. -/
def isInsert : GenAction → Bool
  | .insertHistory _ _ => true
  | _ => false

/-- Selects the network calls of a trace. -/
def isCallAPI : GenAction → Bool
  | .callAPI _ => true
  | _ => false

/-- Embeds `getHistory` of `storage.ts`: return the stored list, already
newest-first. -/
def getHistory (history : List HistoryItem) : List HistoryItem :=
  history

/-! ## Helper lemmas -/

/-- Taking `n` of an append is unaffected by truncating the right part to
`m ≥ n` beforehand. -/
theorem take_append_take {α : Type} (a b : List α) (n m : Nat) (h : n ≤ m) :
    (a ++ b.take m).take n = (a ++ b).take n := by
  induction a generalizing n with
  | nil =>
    simp only [List.nil_append, List.take_take]
    rw [Nat.min_eq_left h]
  | cons x xs ih =>
    cases n with
    | zero => simp
    | succ k =>
      simp only [List.cons_append, List.take_succ_cons]
      rw [ih k (Nat.le_trans (Nat.le_succ k) h)]

/-- A single insert never leaves more than the cap in the store. -/
theorem addItem_length_le (it : HistoryItem) (h : List HistoryItem) :
    (addItem it h).length ≤ MAX_HISTORY_SIZE := by
  simp only [addItem, List.length_take]
  exact Nat.min_le_left _ _

/-- Sequential insertion starting from a list within the cap keeps the
reversed inserted items (newest first) in front, truncated to the cap. -/
theorem insertAll_eq_append_take (items : List HistoryItem) (h : List HistoryItem)
    (hlen : h.length ≤ MAX_HISTORY_SIZE) :
    insertAll items h = (items.reverse ++ h).take MAX_HISTORY_SIZE := by
  induction items generalizing h with
  | nil =>
    simp only [insertAll, List.foldl_nil, List.reverse_nil, List.nil_append]
    rw [List.take_of_length_le hlen]
  | cons i is ih =>
    have step : insertAll (i :: is) h = insertAll is (addItem i h) := rfl
    rw [step, ih (addItem i h) (addItem_length_le i h)]
    simp only [addItem]
    rw [take_append_take _ _ MAX_HISTORY_SIZE MAX_HISTORY_SIZE (Nat.le_refl _)]
    simp [List.append_assoc]

/-- `dropWhile` leaves a constant list alone when the predicate fails on
its element. -/
theorem dropWhile_replicate_of_neg {α : Type} (p : α → Bool) (c : α) (hp : p c = false)
    (n : Nat) : List.dropWhile p (List.replicate n c) = List.replicate n c := by
  cases n with
  | zero => rfl
  | succ k => simp [List.replicate_succ, List.dropWhile_cons, hp]

/-- Trimming a constant non-whitespace list is the identity. -/
theorem jsTrim_replicate (c : Char) (hc : isJsWhitespace c = false) (n : Nat) :
    jsTrim (List.replicate n c) = List.replicate n c := by
  simp [jsTrim, dropWhile_replicate_of_neg _ _ hc, List.reverse_replicate]

/-! ## Claim theorems -/

/-- C3: the history list never exceeds 50 entries after any `addToHistory`
call; each insert prepends the new item and truncates to the 50
most-recent entries; inserting more than 50 items sequentially into an
empty history yields exactly the 50 most recently inserted, newest-first,
evicting the oldest. -/
theorem history_bounded_law (id : String) (ts : Nat) (prompt imageUrl : String)
    (history : List HistoryItem) (items : List HistoryItem)
    (hN : items.length > 50) :
    (addToHistory id ts prompt imageUrl history).length ≤ 50 ∧
    addToHistory id ts prompt imageUrl history
      = ⟨id, prompt, imageUrl, ts⟩ :: history.take 49 ∧
    insertAll items [] = items.reverse.take 50 ∧
    (insertAll items []).length = 50 := by
  have hins : insertAll items [] = items.reverse.take 50 := by
    rw [insertAll_eq_append_take items [] (by simp [MAX_HISTORY_SIZE])]
    simp [MAX_HISTORY_SIZE]
  refine ⟨?_, ?_, hins, ?_⟩
  · exact addItem_length_le _ _
  · show (({ id := id, prompt := prompt, imageUrl := imageUrl, timestamp := ts } :
        HistoryItem) :: history).take MAX_HISTORY_SIZE = _
    rw [show MAX_HISTORY_SIZE = 49 + 1 from rfl, List.take_succ_cons]
  · rw [hins]
    simp only [List.length_take, List.length_reverse]
    omega

/-- C3 witness: 51 sequential inserts into an empty history leave exactly
the 50 most recent, newest-first. -/
theorem history_bounded_law_witness :
    (List.replicate 51 (⟨"i0", "p0", "u0", 0⟩ : HistoryItem)).length > 50 ∧
    ((addToHistory "i0" 0 "p0" "u0" []).length ≤ 50 ∧
     addToHistory "i0" 0 "p0" "u0" []
       = ⟨"i0", "p0", "u0", 0⟩ :: ([] : List HistoryItem).take 49 ∧
     insertAll (List.replicate 51 ⟨"i0", "p0", "u0", 0⟩) []
       = (List.replicate 51 (⟨"i0", "p0", "u0", 0⟩ : HistoryItem)).reverse.take 50 ∧
     (insertAll (List.replicate 51 ⟨"i0", "p0", "u0", 0⟩) []).length = 50) :=
  ⟨by decide,
   history_bounded_law "i0" 0 "p0" "u0" [] (List.replicate 51 ⟨"i0", "p0", "u0", 0⟩)
     (by decide)⟩

/-- C10: `addToHistory` is a pure prepend-and-truncate on the stored
list: the result is exactly the new item followed by the first 49 prior
items unchanged and in order. -/
theorem addToHistory_prepend_truncate_frame (id : String) (ts : Nat)
    (prompt imageUrl : String) (history : List HistoryItem) :
    addToHistory id ts prompt imageUrl history
      = ⟨id, prompt, imageUrl, ts⟩ :: history.take 49 := by
  show (({ id := id, prompt := prompt, imageUrl := imageUrl, timestamp := ts } :
      HistoryItem) :: history).take MAX_HISTORY_SIZE = _
  rw [show MAX_HISTORY_SIZE = 49 + 1 from rfl, List.take_succ_cons]

/-- C9: selection processing truncates but never rejects for length: a
selection of 1500 identical non-whitespace characters yields a valid
result whose text is exactly the first 1000 characters, flagged as
truncated; a selection of exactly 1000 such characters yields the same
text unflagged. -/
theorem selection_truncation_law (c : Char) (hc : isJsWhitespace c = false) :
    processSelectedText (List.replicate 1500 c)
      = ⟨List.replicate 1000 c, true, true, none⟩ ∧
    (List.replicate 1500 c).take 1000 = List.replicate 1000 c ∧
    processSelectedText (List.replicate 1000 c)
      = ⟨List.replicate 1000 c, true, false, none⟩ := by
  have htrim15 : jsTrim (List.replicate 1500 c) = List.replicate 1500 c :=
    jsTrim_replicate c hc 1500
  have htrim10 : jsTrim (List.replicate 1000 c) = List.replicate 1000 c :=
    jsTrim_replicate c hc 1000
  refine ⟨?_, ?_, ?_⟩
  · simp only [processSelectedText, isEmptyOrWhitespace, htrim15, List.length_replicate,
      truncateText, MAX_TEXT_LENGTH, List.take_replicate]
    norm_num
  · simp only [List.take_replicate]
    norm_num
  · simp only [processSelectedText, isEmptyOrWhitespace, htrim10, List.length_replicate,
      truncateText, MAX_TEXT_LENGTH]
    norm_num

/-- C4: `parseApiError` maps 401 and 403 to the auth-error message, 429
to the rate-limit message, 400 to the bad-request message, every status
at least 500 to the service-unavailable message, and every other non-2xx
status with non-empty error text to the generic message embedding that
text. -/
theorem parseApiError_status_mapping (status : Nat) (errorText : String) :
    (status = 401 ∨ status = 403 →
      parseApiError status errorText
        = "Invalid or expired API key. Please check your API key in settings.") ∧
    (status = 429 →
      parseApiError status errorText
        = "Rate limit exceeded. Please wait a moment and try again.") ∧
    (status = 400 →
      parseApiError status errorText
        = "Invalid request. Please try a different prompt.") ∧
    (500 ≤ status →
      parseApiError status errorText
        = "Service temporarily unavailable. Please try again later.") ∧
    (¬(200 ≤ status ∧ status ≤ 299) → status ≠ 400 → status ≠ 401 → status ≠ 403 →
      status ≠ 429 → status < 500 → errorText ≠ "" →
      parseApiError status errorText = "Failed to generate image: " ++ errorText) := by
  refine ⟨?_, ?_, ?_, ?_, ?_⟩
  · rintro (rfl | rfl) <;> rfl
  · rintro rfl; rfl
  · rintro rfl; rfl
  · intro h500
    unfold parseApiError
    rw [if_neg (by omega), if_neg (by omega), if_neg (by omega), if_pos (by omega)]
  · intro _ h400 h401 h403 h429 h500 htext
    unfold parseApiError
    rw [if_neg h429, if_neg (by tauto), if_neg h400, if_neg (by omega : ¬status ≥ 500),
      if_pos htext]

/-- C4 witness: the status mapping at the concrete statuses 401, 503 and
418. -/
theorem parseApiError_status_mapping_witness :
    parseApiError 401 "x"
      = "Invalid or expired API key. Please check your API key in settings." ∧
    parseApiError 503 "x"
      = "Service temporarily unavailable. Please try again later." ∧
    parseApiError 418 "teapot" = "Failed to generate image: " ++ "teapot" :=
  ⟨(parseApiError_status_mapping 401 "x").1 (Or.inl rfl),
   (parseApiError_status_mapping 503 "x").2.2.2.1 (by omega),
   (parseApiError_status_mapping 418 "teapot").2.2.2.2 (by omega) (by omega) (by omega)
     (by omega) (by omega) (by omega) (by decide)⟩

/-- C8: `validateImageUrl` accepts exactly the strings parsing as
absolute URLs with scheme http or https, and in particular validates the
sample inputs of the spec as stated (with `none` standing for a
non-string input such as null). -/
theorem validateImageUrl_spec :
    (∀ s : String, validateImageUrl (some s) = parsesAsHttpUrl s) ∧
    validateImageUrl (some "https://x/y.png") = true ∧
    validateImageUrl (some "http://x/y.png?a=1#b") = true ∧
    validateImageUrl (some "") = false ∧
    validateImageUrl (some "not a url") = false ∧
    validateImageUrl (some "ftp://x/y") = false ∧
    validateImageUrl none = false := by
  refine ⟨?_, by decide, by decide, by decide, by decide, by decide, rfl⟩
  intro s
  by_cases h : s.length = 0
  · have hd : s.data = [] := by
      have : s.data.length = 0 := h
      exact List.length_eq_zero.mp this
    simp [validateImageUrl, parsesAsHttpUrl, urlProtocol, h, hd]
  · simp [validateImageUrl, parsesAsHttpUrl, h]

/-- C1 counterexample: a stored credential consisting of one space
character is whitespace-only and shorter than 10 characters, yet
`generateImage` reaches the network call and does not emit the
`MissingCredential` failure event; the dedicated format check in
`storage.ts` does reject that credential, but `generateImage` only tests
JS truthiness. -/
theorem generateImage_whitespace_key_reaches_network :
    validateApiKeyFormat " " = false ∧
    (generateImage "p" (some " ") FetchOutcome.transportError).filter isCallAPI
      = [GenAction.callAPI "p"] ∧
    (generateImage "p" (some " ") FetchOutcome.transportError).filter isErrorEvent
      ≠ [GenAction.emitError missingCredentialMessage] := by
  refine ⟨by decide, by decide, by decide⟩

/-- C1 amended: for every credential value that is absent or empty,
`generateImage` never reaches the network call and yields exactly the
`MissingCredential` failure event with its fixed message. -/
theorem generateImage_missing_credential (prompt : String) (apiKey : Option String)
    (fetch : FetchOutcome) (h : jsFalsy apiKey = true) :
    generateImage prompt apiKey fetch
      = [GenAction.readCredential, GenAction.emitError missingCredentialMessage] ∧
    (generateImage prompt apiKey fetch).filter isCallAPI = [] ∧
    (generateImage prompt apiKey fetch).filter isErrorEvent
      = [GenAction.emitError missingCredentialMessage] := by
  refine ⟨?_, ?_, ?_⟩ <;>
    simp [generateImage, h, isCallAPI, isErrorEvent]

/-- C1 witness: the amended claim at an absent credential. -/
theorem generateImage_missing_credential_witness :
    jsFalsy none = true ∧
    (generateImage "p" none FetchOutcome.transportError
       = [GenAction.readCredential, GenAction.emitError missingCredentialMessage] ∧
     (generateImage "p" none FetchOutcome.transportError).filter isCallAPI = [] ∧
     (generateImage "p" none FetchOutcome.transportError).filter isErrorEvent
       = [GenAction.emitError missingCredentialMessage]) :=
  ⟨by decide, generateImage_missing_credential "p" none FetchOutcome.transportError
    (by decide)⟩

/-- C2: with a configured credential and a successful API response
carrying a well-formed image URL, `generateImage` performs exactly the
trace credential-read, started, network call, history insert, succeeded
event — one succeeded event carrying the prompt and URL, one insert with
the same prompt and URL strictly before the succeeded event — and the
insert places the new item at index 0 of the stored history. -/
theorem generateImage_success_pipeline (prompt imageUrl apiKey id : String) (ts : Nat)
    (history : List HistoryItem)
    (hlen : prompt.length ≤ 1000)
    (hnw : ∃ c ∈ prompt.data, isJsWhitespace c = false)
    (hkey : apiKey.isEmpty = false)
    (hurl : validateImageUrl (some imageUrl) = true) :
    generateImage prompt (some apiKey)
        (FetchOutcome.response 200 true "" (some ⟨[⟨imageUrl⟩]⟩))
      = [GenAction.readCredential, GenAction.emitStarted prompt,
         GenAction.callAPI prompt, GenAction.insertHistory prompt imageUrl,
         GenAction.emitImageGenerated prompt imageUrl] ∧
    (generateImage prompt (some apiKey)
        (FetchOutcome.response 200 true "" (some ⟨[⟨imageUrl⟩]⟩))).filter isSucceededEvent
      = [GenAction.emitImageGenerated prompt imageUrl] ∧
    (generateImage prompt (some apiKey)
        (FetchOutcome.response 200 true "" (some ⟨[⟨imageUrl⟩]⟩))).filter isInsert
      = [GenAction.insertHistory prompt imageUrl] ∧
    (getHistory (addToHistory id ts prompt imageUrl history)).head?
      = some ⟨id, prompt, imageUrl, ts⟩ := by
  refine ⟨?_, ?_, ?_, ?_⟩
  · simp [generateImage, jsFalsy, hkey, callFalAPI, hurl]
  · simp [generateImage, jsFalsy, hkey, callFalAPI, hurl, isSucceededEvent]
  · simp [generateImage, jsFalsy, hkey, callFalAPI, hurl, isInsert]
  · simp [getHistory, addToHistory, addItem, MAX_HISTORY_SIZE]

/-- C2 witness: the success pipeline at the concrete scenario of the
spec (prompt a red fox, URL from the mocked response). -/
theorem generateImage_success_pipeline_witness :
    ("a red fox".length ≤ 1000 ∧ (∃ c ∈ "a red fox".data, isJsWhitespace c = false) ∧
     "valid-key-123".isEmpty = false ∧
     validateImageUrl (some "https://fal.media/x.jpg") = true) ∧
    (getHistory (addToHistory "i0" 7 "a red fox" "https://fal.media/x.jpg" [])).head?
      = some ⟨"i0", "a red fox", "https://fal.media/x.jpg", 7⟩ :=
  ⟨⟨by decide, by decide, by decide, by decide⟩,
   (generateImage_success_pipeline "a red fox" "https://fal.media/x.jpg" "valid-key-123"
     "i0" 7 [] (by decide) (by decide) (by decide) (by decide)).2.2.2⟩

/-- C5: in every execution of `generateImage` the credential read is the
first action, and an unconfigured credential never produces a started
lifecycle event. -/
theorem credential_check_before_started (prompt : String) (apiKey : Option String)
    (fetch : FetchOutcome) :
    (generateImage prompt apiKey fetch).head? = some GenAction.readCredential ∧
    (jsFalsy apiKey = true →
      (generateImage prompt apiKey fetch).filter isStartedEvent = []) := by
  refine ⟨rfl, fun h => ?_⟩
  simp [generateImage, h, isStartedEvent]

/-- C5 witness: with no stored credential, the run starts with the
credential read and emits no started event. -/
theorem credential_check_before_started_witness :
    (generateImage "p" none FetchOutcome.transportError).head?
      = some GenAction.readCredential ∧
    (generateImage "p" none FetchOutcome.transportError).filter isStartedEvent = [] :=
  ⟨(credential_check_before_started "p" none FetchOutcome.transportError).1,
   (credential_check_before_started "p" none FetchOutcome.transportError).2 (by decide)⟩

/-- C6: when the API call fails with a transport-level connection error,
`generateImage` emits exactly one failed event, whose message contains
the words internet connection, and performs no history insert. -/
theorem transport_error_single_failure_no_insert (prompt apiKey : String)
    (hkey : apiKey.isEmpty = false) :
    (generateImage prompt (some apiKey) FetchOutcome.transportError).filter isErrorEvent
      = [GenAction.emitError ("Network error. Please check your " ++
          "internet connection" ++ " and try again.")] ∧
    (generateImage prompt (some apiKey) FetchOutcome.transportError).filter isInsert
      = [] := by
  constructor <;> simp [generateImage, jsFalsy, hkey, callFalAPI, isErrorEvent, isInsert]

/-- C6 witness: the transport-error behavior at a concrete configured
credential. -/
theorem transport_error_single_failure_no_insert_witness :
    "valid-key-123".isEmpty = false ∧
    ((generateImage "p" (some "valid-key-123") FetchOutcome.transportError).filter
        isErrorEvent
      = [GenAction.emitError ("Network error. Please check your " ++
          "internet connection" ++ " and try again.")] ∧
     (generateImage "p" (some "valid-key-123") FetchOutcome.transportError).filter
        isInsert = []) :=
  ⟨by decide, transport_error_single_failure_no_insert "p" "valid-key-123" (by decide)⟩

/-- C7 counterexample: for HTTP status 418 with a non-empty raw error
body, the user-facing failed event embeds the raw error body text, so the
technical detail is not confined to the diagnostic log. -/
theorem error_event_embeds_raw_body :
    (generateImage "p" (some "valid-key-123")
        (FetchOutcome.response 418 false "raw body detail" none)).filter isErrorEvent
      = [GenAction.emitError ("Failed to generate image: " ++ "raw body detail")] := by
  decide

/-- C7 amended: the failed event always carries exactly the classified
user-facing message of the raised `ApiError`, never its technical
message; for auth, rate-limit, bad-request and server-error statuses that
message is a fixed constant independent of the raw error body — but for
other non-2xx statuses the generic user-facing message embeds the raw
error text. -/
theorem error_event_carries_classified_message (prompt apiKey : String)
    (fetch : FetchOutcome) (e : ApiError)
    (hkey : apiKey.isEmpty = false)
    (herr : callFalAPI fetch = .error e) :
    (generateImage prompt (some apiKey) fetch).filter isErrorEvent
      = [GenAction.emitError e.userMessage] ∧
    (∀ status errorText : _,
      status = 401 ∨ status = 403 ∨ status = 429 ∨ status = 400 ∨ 500 ≤ status →
      parseApiError status errorText = parseApiError status "") := by
  constructor
  · simp [generateImage, jsFalsy, hkey, herr, isErrorEvent]
  · intro status errorText hs
    rcases hs with rfl | rfl | rfl | rfl | h5
    · rfl
    · rfl
    · rfl
    · rfl
    · have h429 : ¬status = 429 := by omega
      have h4013 : ¬(status = 401 ∨ status = 403) := by omega
      have h400 : ¬status = 400 := by omega
      have hge : status ≥ 500 := h5
      simp only [parseApiError, if_neg h429, if_neg h4013, if_neg h400, if_pos hge]

/-- C7 witness: at a transport error the failed event carries exactly
the classified connectivity message. -/
theorem error_event_carries_classified_message_witness :
    "valid-key-123".isEmpty = false ∧
    (generateImage "p" (some "valid-key-123") FetchOutcome.transportError).filter
        isErrorEvent
      = [GenAction.emitError
          "Network error. Please check your internet connection and try again."] :=
  ⟨by decide,
   (error_event_carries_classified_message "p" "valid-key-123" FetchOutcome.transportError
     ⟨"Network error: Unable to connect to FAL API",
      "Network error. Please check your internet connection and try again."⟩
     (by decide) rfl).1⟩

/-- C9 witness: the truncation law at the concrete character a. -/
theorem selection_truncation_law_witness :
    isJsWhitespace 'a' = false ∧
    processSelectedText (List.replicate 1500 'a')
      = ⟨List.replicate 1000 'a', true, true, none⟩ ∧
    processSelectedText (List.replicate 1000 'a')
      = ⟨List.replicate 1000 'a', true, false, none⟩ :=
  ⟨by decide, (selection_truncation_law 'a' (by decide)).1,
   (selection_truncation_law 'a' (by decide)).2.2⟩
